import Mathlib

/- Verification of the CRR binomial option valuation routine
   (src/vanilla_pricing/Binomial Option Valuation.ipynb, function CRR_option_value).

   The Python source is embedded shallowly over the real numbers:
   - the numpy grids become functions (state index, time index) : ℕ → ℕ → ℝ;
   - the in-place backward loop becomes an explicit iteration (runBack) whose
     k-th step rewrites column M-1-k exactly as the slice assignment
     V[0:M-t, t] = (q * V[0:M-t, t+1] + (1 - q) * V[1:M-t+1, t+1]) * df does;
   - the two run-time failures Python can raise on this code path
     (ZeroDivisionError from T/M or from the division by u - d, and
     ValueError from math.sqrt on a negative argument) become an Except value.

   A second backward pass, runBackSpec, transcribes the specification text
   (spec.md, section 4.1 stage 4), which updates every state i with
   0 <= i <= t at column t; the source updates states i < M - t instead.
   The two are compared on the reference scenario. -/

namespace OptionPricing

/-- Run-time failures of the Python code path: ZeroDivisionError (from `T / M`
with `M = 0` or from the division by `u - d` when `u = d`) and ValueError
(from `math.sqrt` on a negative argument). -/
inductive PyError where
  | zeroDivision
  | valueError
  deriving DecidableEq

/-- One iteration of the backward loop of `CRR_option_value`: the slice
assignment `V[0:M-t, t] = (q * V[0:M-t, t+1] + (1 - q) * V[1:M-t+1, t+1]) * df`.
Cell `(i, t)` with `i < M - t` receives the discounted expectation of cells
`(i, t+1)` and `(i+1, t+1)`; every other cell is left unchanged. -/
def backStep {α : Type} [CommRing α] (M : ℕ) (q df : α) (t : ℕ) (V : ℕ → ℕ → α) :
    ℕ → ℕ → α :=
  fun i s =>
    if s = t ∧ i < M - t then (q * V i (t + 1) + (1 - q) * V (i + 1) (t + 1)) * df
    else V i s

/-- The grid after the first `k` iterations of
`for t in range(M - 1, -1, -1)`: iteration number `k` (counting from 0)
processes column `M - 1 - k`. -/
def runBack {α : Type} [CommRing α] (M : ℕ) (q df : α) (V : ℕ → ℕ → α) :
    ℕ → ℕ → ℕ → α
  | 0 => V
  | k + 1 => backStep M q df (M - 1 - k) (runBack M q df V k)

/-- Length of one time interval, `dt = T / M`. -/
noncomputable def dt (T : ℝ) (M : ℕ) : ℝ := T / M

/-- Discount factor per interval, `df = math.exp(-r * dt)`. -/
noncomputable def df (r T : ℝ) (M : ℕ) : ℝ := Real.exp (-r * dt T M)

/-- Up movement, `u = math.exp(sigma * math.sqrt(dt))`. -/
noncomputable def u (sigma T : ℝ) (M : ℕ) : ℝ := Real.exp (sigma * Real.sqrt (dt T M))

/-- Down movement, `d = 1 / u`. -/
noncomputable def d (sigma T : ℝ) (M : ℕ) : ℝ := 1 / u sigma T M

/-- Martingale branch probability, `q = (math.exp(r * dt) - d) / (u - d)`. -/
noncomputable def q (r sigma T : ℝ) (M : ℕ) : ℝ :=
  (Real.exp (r * dt T M) - d sigma T M) / (u sigma T M - d sigma T M)

/-- The index-level grid `S = S0 * mu * md`: after the broadcasting of
`np.arange(M + 1)` and its transpose, entry `(i, t)` is
`S0 * u ** (t - i) * d ** i`, where the exponent `t - i` is a (possibly
negative) integer. -/
noncomputable def Sgrid (S0 u0 d0 : ℝ) : ℕ → ℕ → ℝ :=
  fun i t => S0 * u0 ^ ((t : ℤ) - (i : ℤ)) * d0 ^ i

/-- The inner-value grid: `np.maximum(S - K, 0)` when `otype == 'call'`,
otherwise `np.maximum(K - S, 0)`. -/
noncomputable def payoffGrid (K : ℝ) (S : ℕ → ℕ → ℝ) (otype : String) : ℕ → ℕ → ℝ :=
  fun i t => if otype = "call" then max (S i t - K) 0 else max (K - S i t) 0

/-- Shallow embedding of `CRR_option_value(S0, K, T, r, sigma, otype, M)`.
The guards reproduce, in evaluation order, the places where the Python code
raises: `dt = T / M` raises ZeroDivisionError for `M = 0`; `math.sqrt(dt)`
raises ValueError for `dt < 0`; the division by `u - d` in `q` raises
ZeroDivisionError when `u = d`.  Otherwise the function returns
`V[0, 0]` of the grid produced by the backward loop. -/
noncomputable def CRR_option_value (S0 K T r sigma : ℝ) (otype : String) (M : ℕ) :
    Except PyError ℝ :=
  if M = 0 then Except.error PyError.zeroDivision
  else if dt T M < 0 then Except.error PyError.valueError
  else if u sigma T M - d sigma T M = 0 then Except.error PyError.zeroDivision
  else Except.ok
    (runBack M (q r sigma T M) (df r T M)
      (payoffGrid K (Sgrid S0 (u sigma T M) (d sigma T M)) otype) M 0 0)

/-- Modelled from the spec (section 4.1, stage 4): one step of the backward
induction as the specification words it, updating every state `i` from `0`
to `t`: `value[i, t] = df * (q * value[i, t+1] + (1 - q) * value[i+1, t+1])`. -/
def backStepSpec {α : Type} [CommRing α] (q0 df0 : α) (t : ℕ) (V : ℕ → ℕ → α) :
    ℕ → ℕ → α :=
  fun i s =>
    if s = t ∧ i ≤ t then df0 * (q0 * V i (t + 1) + (1 - q0) * V (i + 1) (t + 1))
    else V i s

/-- Modelled from the spec: the backward induction of section 4.1 stage 4,
`t` running from `M - 1` down to `0`. -/
def runBackSpec {α : Type} [CommRing α] (M : ℕ) (q0 df0 : α) (V : ℕ → ℕ → α) :
    ℕ → ℕ → ℕ → α
  | 0 => V
  | k + 1 => backStepSpec q0 df0 (M - 1 - k) (runBackSpec M q0 df0 V k)

/-- Modelled from the spec: the present-value price obtained by the
specification backward induction, starting from the same lattice
parameters and the same inner-value grid as the source code. -/
noncomputable def specBackwardValue (S0 K T r sigma : ℝ) (otype : String) (M : ℕ) : ℝ :=
  runBackSpec M (q r sigma T M) (df r T M)
    (payoffGrid K (Sgrid S0 (u sigma T M) (d sigma T M)) otype) M 0 0


/-- Modelled from the spec (section 8, single-step case): the hand-computed
two-branch discounted expectation for a call,
df * (q * max(u*S0 - K, 0) + (1 - q) * max(d*S0 - K, 0)), with dt = T,
u = exp(sigma * sqrt(T)), d = 1/u, df = exp(-r*T),
q = (exp(r*T) - d) / (u - d). -/
noncomputable def singleStepFormulaCall (S0 K T r sigma : ℝ) : ℝ :=
  Real.exp (-r * T) *
    ((Real.exp (r * T) - 1 / Real.exp (sigma * Real.sqrt T)) /
        (Real.exp (sigma * Real.sqrt T) - 1 / Real.exp (sigma * Real.sqrt T)) *
      max (Real.exp (sigma * Real.sqrt T) * S0 - K) 0 +
    (1 - (Real.exp (r * T) - 1 / Real.exp (sigma * Real.sqrt T)) /
        (Real.exp (sigma * Real.sqrt T) - 1 / Real.exp (sigma * Real.sqrt T))) *
      max (1 / Real.exp (sigma * Real.sqrt T) * S0 - K) 0)

/-- Modelled from the spec (section 8, single-step case): the analogous
two-branch discounted expectation with put payoffs. -/
noncomputable def singleStepFormulaPut (S0 K T r sigma : ℝ) : ℝ :=
  Real.exp (-r * T) *
    ((Real.exp (r * T) - 1 / Real.exp (sigma * Real.sqrt T)) /
        (Real.exp (sigma * Real.sqrt T) - 1 / Real.exp (sigma * Real.sqrt T)) *
      max (K - Real.exp (sigma * Real.sqrt T) * S0) 0 +
    (1 - (Real.exp (r * T) - 1 / Real.exp (sigma * Real.sqrt T)) /
        (Real.exp (sigma * Real.sqrt T) - 1 / Real.exp (sigma * Real.sqrt T))) *
      max (K - 1 / Real.exp (sigma * Real.sqrt T) * S0) 0)

/-- A result is a numeric price exactly when it is an `Except.ok`. -/
def isPrice (res : Except PyError ℝ) : Prop :=
  match res with
  | Except.ok _ => True
  | Except.error _ => False

/-- C9: pricing with any option type other than the string "call" takes the
else-branch of the payoff selection, so the result is exactly the put price;
no option type can fail in that branch. -/

lemma exp_sub_inv_ne_zero {x : ℝ} (hx : x ≠ 0) :
    Real.exp x - 1 / Real.exp x ≠ 0 := by
  intro h
  apply hx
  have hpos := Real.exp_pos x
  have h0 : Real.exp x = 1 / Real.exp x := sub_eq_zero.mp h
  have h1 : Real.exp x * Real.exp x = 1 := by
    field_simp at h0
    linarith [h0]
  have h2 : Real.exp (x + x) = Real.exp 0 := by
    rw [Real.exp_add, Real.exp_zero]; exact h1
  have h3 : x + x = 0 := Real.exp_injective h2
  linarith

lemma CRR_option_value_ok (S0 K T r sigma : ℝ) (otype : String) (M : ℕ)
    (hM : M ≠ 0) (hdt : ¬ dt T M < 0) (hx : sigma * Real.sqrt (dt T M) ≠ 0) :
    CRR_option_value S0 K T r sigma otype M =
      Except.ok (runBack M (q r sigma T M) (df r T M)
        (payoffGrid K (Sgrid S0 (u sigma T M) (d sigma T M)) otype) M 0 0) := by
  have hud : u sigma T M - d sigma T M ≠ 0 := by
    simp only [u, d]
    exact exp_sub_inv_ne_zero hx
  rw [CRR_option_value, if_neg hM, if_neg hdt, if_neg hud]

lemma payoffGrid_ne_call (K : ℝ) (S : ℕ → ℕ → ℝ) {otype : String} (h : otype ≠ "call") :
    payoffGrid K S otype = payoffGrid K S "put" := by
  funext i t
  simp only [payoffGrid]
  rw [if_neg h, if_neg (by decide : ¬ ("put" = "call"))]

theorem C9_non_call_priced_as_put (S0 K T r sigma : ℝ) (otype : String) (M : ℕ)
    (h : otype ≠ "call") :
    CRR_option_value S0 K T r sigma otype M =
      CRR_option_value S0 K T r sigma "put" M := by
  simp only [CRR_option_value]
  rw [payoffGrid_ne_call _ _ h]

theorem C9_witness :
    CRR_option_value 100 95 1 (1/20) (1/5) "straddle" 3 =
      CRR_option_value 100 95 1 (1/20) (1/5) "put" 3 :=
  C9_non_call_priced_as_put 100 95 1 (1/20) (1/5) "straddle" 3 (by decide)

/-- C4 counterexample: with the unrecognized option type "bananas" the function
returns a numeric price (an Except.ok) instead of signalling any
UnsupportedOptionType failure. -/
theorem C4_counterexample : isPrice (CRR_option_value 100 100 1 0 1 "bananas" 4) := by
  have h1 : (0:ℝ) < dt 1 4 := by norm_num [dt]
  rw [CRR_option_value_ok 100 100 1 0 1 "bananas" 4 (by norm_num)
    (not_lt.mpr h1.le) (by rw [one_mul]; exact ne_of_gt (Real.sqrt_pos.mpr h1))]
  trivial

/-- C4 amended: an option type that is neither "call" nor "put" is not
rejected; it is silently priced as a put. -/
theorem C4_amended_unrecognized_priced_as_put (S0 K T r sigma : ℝ) (otype : String)
    (M : ℕ) (h1 : otype ≠ "call") (h2 : otype ≠ "put") :
    CRR_option_value S0 K T r sigma otype M =
      CRR_option_value S0 K T r sigma "put" M := by
  simp only [CRR_option_value]
  rw [payoffGrid_ne_call _ _ h1]

theorem C4_witness :
    CRR_option_value 80 120 2 (1/10) (3/10) "bermudan" 5 =
      CRR_option_value 80 120 2 (1/10) (3/10) "put" 5 :=
  C4_amended_unrecognized_priced_as_put 80 120 2 (1/10) (3/10) "bermudan" 5
    (by decide) (by decide)

/-- C3 counterexample: the invalid input strike = -100 (non-positive strike) is
not rejected: the function returns a numeric price instead of an
InvalidParameters failure. -/
theorem C3_counterexample : isPrice (CRR_option_value 100 (-100) 1 0 1 "call" 4) := by
  have h1 : (0:ℝ) < dt 1 4 := by norm_num [dt]
  rw [CRR_option_value_ok 100 (-100) 1 0 1 "call" 4 (by norm_num)
    (not_lt.mpr h1.le) (by rw [one_mul]; exact ne_of_gt (Real.sqrt_pos.mpr h1))]
  trivial

/-- C3 amended: the code performs no input validation at all: for every input
with positive maturity, nonzero volatility and a nonzero step count - whatever
the sign of the prices, the strike or the rate, and whatever the derived branch
probability - it returns a numeric price. -/
theorem C3_amended_no_validation (S0 K T r sigma : ℝ) (otype : String) (M : ℕ)
    (hT : 0 < T) (hsigma : sigma ≠ 0) (hM : M ≠ 0) :
    isPrice (CRR_option_value S0 K T r sigma otype M) := by
  have hMpos : (0:ℝ) < (M : ℝ) := by exact_mod_cast Nat.pos_of_ne_zero hM
  have hdtpos : 0 < dt T M := by rw [dt]; exact div_pos hT hMpos
  rw [CRR_option_value_ok S0 K T r sigma otype M hM (not_lt.mpr hdtpos.le)
    (mul_ne_zero hsigma (ne_of_gt (Real.sqrt_pos.mpr hdtpos)))]
  trivial

theorem C3_witness : isPrice (CRR_option_value 1 (-1) 2 1 (-1) "put" 3) :=
  C3_amended_no_validation 1 (-1) 2 1 (-1) "put" 3 (by norm_num) (by norm_num)
    (by norm_num)

/-- C10 counterexample: at maturity -1 with volatility 0 the evaluation stops
in math.sqrt with a ValueError, not with the ZeroDivisionError the claim
asserts for every input with volatility 0. -/
theorem C10_counterexample :
    CRR_option_value 100 100 (-1) (1/20) 0 "call" 1 =
      Except.error PyError.valueError ∧
    PyError.valueError ≠ PyError.zeroDivision := by
  constructor
  · rw [CRR_option_value, if_neg (by norm_num : ¬ (1 = 0)),
      if_pos (by norm_num [dt] : dt (-1) 1 < 0)]
  · decide

/-- C10 amended: whenever maturity is zero, or volatility is zero with a
non-negative maturity, evaluation reaches a division by zero (in T / M when
M = 0, otherwise in the division by u - d, since u = d = 1), and the function
raises ZeroDivisionError instead of returning a price. -/
theorem C10_amended_zero_division (S0 K T r sigma : ℝ) (otype : String) (M : ℕ)
    (h : T = 0 ∨ (sigma = 0 ∧ 0 ≤ T)) :
    CRR_option_value S0 K T r sigma otype M = Except.error PyError.zeroDivision := by
  rw [CRR_option_value]
  by_cases hM : M = 0
  · rw [if_pos hM]
  · have hdtnn : 0 ≤ dt T M := by
      rcases h with hT | ⟨_, hT⟩
      · rw [hT, dt, zero_div]
      · rw [dt]; exact div_nonneg hT (Nat.cast_nonneg M)
    have hx : sigma * Real.sqrt (dt T M) = 0 := by
      rcases h with hT | ⟨hs, _⟩
      · rw [hT, dt, zero_div, Real.sqrt_zero, mul_zero]
      · rw [hs, zero_mul]
    have hud : u sigma T M - d sigma T M = 0 := by
      simp only [u, d, hx, Real.exp_zero]
      norm_num
    rw [if_neg hM, if_neg (not_lt.mpr hdtnn), if_pos hud]

theorem C10_witness :
    CRR_option_value 1 1 0 0 1 "call" 5 = Except.error PyError.zeroDivision :=
  C10_amended_zero_division 1 1 0 0 1 "call" 5 (Or.inl rfl)

/-- C8: the returned cell (0, 0) of the backward pass depends only on grid
cells in the triangular region with state index at most the time index: two
initial grids that agree there produce the same result, whatever their filler
cells hold. -/
theorem C8_filler_noninterference {α : Type} [CommRing α] (M : ℕ) (q0 df0 : α)
    (V W : ℕ → ℕ → α) (h : ∀ i t, i ≤ t → V i t = W i t) :
    runBack M q0 df0 V M 0 0 = runBack M q0 df0 W M 0 0 := by
  have key : ∀ k i t, i ≤ t →
      runBack M q0 df0 V k i t = runBack M q0 df0 W k i t := by
    intro k
    induction k with
    | zero => exact h
    | succ k ih =>
      intro i t hit
      simp only [runBack, backStep]
      by_cases hc : t = M - 1 - k ∧ i < M - (M - 1 - k)
      · obtain ⟨hc1, hc2⟩ := hc
        rw [if_pos ⟨hc1, hc2⟩, if_pos ⟨hc1, hc2⟩, ih i (M - 1 - k + 1) (by omega),
          ih (i + 1) (M - 1 - k + 1) (by omega)]
      · rw [if_neg hc, if_neg hc]
        exact ih i t hit
  exact key M 0 0 le_rfl

theorem C8_witness :
    (∀ i t : ℕ, i ≤ t →
      (fun i t => if i ≤ t then (1:ℤ) else 5) i t = (fun _ _ => (1:ℤ)) i t) ∧
    runBack 2 3 7 (fun i t => if i ≤ t then (1:ℤ) else 5) 2 0 0 =
      runBack 2 3 7 (fun _ _ => (1:ℤ)) 2 0 0 :=
  ⟨fun i t h => by simp [h],
    C8_filler_noninterference 2 3 7 _ _ (fun i t h => by simp [h])⟩

lemma runBack_nonneg (M : ℕ) (q0 df0 : ℝ) (V : ℕ → ℕ → ℝ)
    (hq0 : 0 ≤ q0) (hq1 : q0 ≤ 1) (hdf : 0 ≤ df0) (hV : ∀ i t, 0 ≤ V i t) :
    ∀ k i t, 0 ≤ runBack M q0 df0 V k i t := by
  intro k
  induction k with
  | zero => exact hV
  | succ k ih =>
    intro i t
    simp only [runBack, backStep]
    by_cases hc : t = M - 1 - k ∧ i < M - (M - 1 - k)
    · rw [if_pos hc]
      have h1 := ih i (M - 1 - k + 1)
      have h2 := ih (i + 1) (M - 1 - k + 1)
      have h3 : 0 ≤ 1 - q0 := by linarith
      have h4 := mul_nonneg hq0 h1
      have h5 := mul_nonneg h3 h2
      exact mul_nonneg (by linarith) hdf
    · rw [if_neg hc]
      exact ih i t

/-- C7: on every valid input whose derived branch probability lies in (0, 1)
the function returns a numeric price, and that price is non-negative, for
every option type. -/
theorem C7_price_nonneg (S0 K T r sigma : ℝ) (otype : String) (M : ℕ)
    (hS0 : 0 < S0) (hK : 0 < K) (hT : 0 < T) (hsigma : 0 < sigma) (hM : 1 ≤ M)
    (hq0 : 0 < q r sigma T M) (hq1 : q r sigma T M < 1) :
    ∃ v, CRR_option_value S0 K T r sigma otype M = Except.ok v ∧ 0 ≤ v := by
  have hM0 : M ≠ 0 := by omega
  have hMpos : (0:ℝ) < (M:ℝ) := by exact_mod_cast Nat.pos_of_ne_zero hM0
  have hdtpos : 0 < dt T M := by rw [dt]; exact div_pos hT hMpos
  have hx : sigma * Real.sqrt (dt T M) ≠ 0 :=
    ne_of_gt (mul_pos hsigma (Real.sqrt_pos.mpr hdtpos))
  refine ⟨_, CRR_option_value_ok S0 K T r sigma otype M hM0 (not_lt.mpr hdtpos.le) hx, ?_⟩
  apply runBack_nonneg M _ _ _ hq0.le hq1.le
  · rw [df]; exact (Real.exp_pos _).le
  · intro i t
    simp only [payoffGrid]
    by_cases hcall : otype = "call"
    · rw [if_pos hcall]; exact le_max_right _ _
    · rw [if_neg hcall]; exact le_max_right _ _

lemma runBack1_eval (q0 df0 : ℝ) (V : ℕ → ℕ → ℝ) :
    runBack 1 q0 df0 V 1 0 0 = (q0 * V 0 1 + (1 - q0) * V 1 1) * df0 := by
  norm_num [runBack, backStep]

/-- C6: with a single step, the returned price is exactly the two-branch
discounted expectation of the spec, for the call and for the put. -/
theorem C6_single_step (S0 K T r sigma : ℝ) (hT : 0 < T) (hsigma : 0 < sigma) :
    CRR_option_value S0 K T r sigma "call" 1 =
      Except.ok (singleStepFormulaCall S0 K T r sigma) ∧
    CRR_option_value S0 K T r sigma "put" 1 =
      Except.ok (singleStepFormulaPut S0 K T r sigma) := by
  have hdt1 : dt T 1 = T := by rw [dt]; simp
  have hdtnn : ¬ dt T 1 < 0 := by rw [hdt1]; exact not_lt.mpr hT.le
  have hx : sigma * Real.sqrt (dt T 1) ≠ 0 := by
    rw [hdt1]; exact ne_of_gt (mul_pos hsigma (Real.sqrt_pos.mpr hT))
  constructor
  · rw [CRR_option_value_ok S0 K T r sigma "call" 1 one_ne_zero hdtnn hx,
      runBack1_eval]
    congr 1
    simp only [payoffGrid, Sgrid, q, df, u, d, hdt1, singleStepFormulaCall,
      if_pos rfl]
    norm_num
    ring_nf
  · rw [CRR_option_value_ok S0 K T r sigma "put" 1 one_ne_zero hdtnn hx,
      runBack1_eval]
    congr 1
    simp only [payoffGrid, Sgrid, q, df, u, d, hdt1, singleStepFormulaPut,
      if_neg (by decide : ¬ ("put" = "call"))]
    norm_num
    ring_nf

theorem C6_witness :
    CRR_option_value 100 90 1 (1/20) 1 "call" 1 =
      Except.ok (singleStepFormulaCall 100 90 1 (1/20) 1) ∧
    CRR_option_value 100 90 1 (1/20) 1 "put" 1 =
      Except.ok (singleStepFormulaPut 100 90 1 (1/20) 1) :=
  C6_single_step 100 90 1 (1/20) 1 (by norm_num) (by norm_num)

lemma exp_tenth_bounds :
    (1.105170915 : ℝ) ≤ Real.exp (1/10) ∧ Real.exp (1/10) ≤ 1.105170919 := by
  have h := @Real.exp_bound (1/10)
    (by rw [abs_of_nonneg (by norm_num : (0:ℝ) ≤ 1/10)]; norm_num) 6 (by norm_num)
  rw [abs_of_nonneg (by norm_num : (0:ℝ) ≤ 1/10)] at h
  rw [Finset.sum_range_succ, Finset.sum_range_succ, Finset.sum_range_succ,
    Finset.sum_range_succ, Finset.sum_range_succ, Finset.sum_range_succ,
    Finset.sum_range_zero] at h
  norm_num [Nat.factorial] at h
  rw [abs_le] at h
  constructor <;> linarith [h.1, h.2]

lemma exp_eightieth_bounds :
    (1.012578451 : ℝ) ≤ Real.exp (1/80) ∧ Real.exp (1/80) ≤ 1.012578452 := by
  have h := @Real.exp_bound (1/80)
    (by rw [abs_of_nonneg (by norm_num : (0:ℝ) ≤ 1/80)]; norm_num) 5 (by norm_num)
  rw [abs_of_nonneg (by norm_num : (0:ℝ) ≤ 1/80)] at h
  rw [Finset.sum_range_succ, Finset.sum_range_succ, Finset.sum_range_succ,
    Finset.sum_range_succ, Finset.sum_range_succ, Finset.sum_range_zero] at h
  norm_num [Nat.factorial] at h
  rw [abs_le] at h
  constructor <;> linarith [h.1, h.2]

lemma inv_bounds {x lo hi : ℝ} (hlo : lo ≤ x) (hhi : x ≤ hi) (h0 : 0 < lo) :
    hi⁻¹ ≤ x⁻¹ ∧ x⁻¹ ≤ lo⁻¹ := by
  constructor
  · rw [← one_div, ← one_div]
    exact one_div_le_one_div_of_le (lt_of_lt_of_le h0 hlo) hhi
  · rw [← one_div, ← one_div]
    exact one_div_le_one_div_of_le h0 hlo

lemma mul_bounds {x y xl xh yl yh : ℝ} (hxl : xl ≤ x) (hxh : x ≤ xh)
    (hyl : yl ≤ y) (hyh : y ≤ yh) (h0x : 0 ≤ xl) (h0y : 0 ≤ yl) :
    xl * yl ≤ x * y ∧ x * y ≤ xh * yh := by
  constructor
  · exact mul_le_mul hxl hyl h0y (le_trans h0x hxl)
  · exact mul_le_mul hxh hyh (le_trans h0y hyl) (le_trans (le_trans h0x hxl) hxh)

lemma d_num_bounds :
    (0.904837417 : ℝ) ≤ (Real.exp (1/10))⁻¹ ∧ (Real.exp (1/10))⁻¹ ≤ 0.904837421 := by
  obtain ⟨h1, h2⟩ := exp_tenth_bounds
  obtain ⟨g1, g2⟩ := inv_bounds h1 h2 (by norm_num)
  exact ⟨le_trans (by norm_num) g1, le_trans g2 (by norm_num)⟩

lemma df_num_bounds :
    (0.987577800 : ℝ) ≤ (Real.exp (1/80))⁻¹ ∧ (Real.exp (1/80))⁻¹ ≤ 0.987577802 := by
  obtain ⟨h1, h2⟩ := exp_eightieth_bounds
  obtain ⟨g1, g2⟩ := inv_bounds h1 h2 (by norm_num)
  exact ⟨le_trans (by norm_num) g1, le_trans g2 (by norm_num)⟩

lemma q_expr_bounds :
    (0.537808325 : ℝ) ≤
      (Real.exp (1/80) - (Real.exp (1/10))⁻¹) /
        (Real.exp (1/10) - (Real.exp (1/10))⁻¹) ∧
      (Real.exp (1/80) - (Real.exp (1/10))⁻¹) /
        (Real.exp (1/10) - (Real.exp (1/10))⁻¹) ≤ 0.537808419 := by
  obtain ⟨hU1, hU2⟩ := exp_tenth_bounds
  obtain ⟨hB1, hB2⟩ := exp_eightieth_bounds
  obtain ⟨hd1, hd2⟩ := d_num_bounds
  have hnum1 : (0.107741030 : ℝ) ≤ Real.exp (1/80) - (Real.exp (1/10))⁻¹ := by linarith
  have hnum2 : Real.exp (1/80) - (Real.exp (1/10))⁻¹ ≤ 0.107741035 := by linarith
  have hden1 : (0.200333494 : ℝ) ≤ Real.exp (1/10) - (Real.exp (1/10))⁻¹ := by linarith
  have hden2 : Real.exp (1/10) - (Real.exp (1/10))⁻¹ ≤ 0.200333502 := by linarith
  constructor
  · exact le_trans (by norm_num) (div_le_div₀ (by linarith) hnum1 (by linarith) hden2)
  · exact le_trans (div_le_div₀ (by norm_num) hnum2 (by norm_num) hden1) (by norm_num)

lemma dt_ref : dt 1 4 = 1/4 := by rw [dt]; norm_num

lemma sqrt_quarter : Real.sqrt (1/4) = 1/2 := by
  rw [show (1/4 : ℝ) = (1/2)^2 by norm_num,
    Real.sqrt_sq (by norm_num : (0:ℝ) ≤ 1/2)]

lemma u_ref : u (1/5) 1 4 = Real.exp (1/10) := by
  rw [u, dt_ref, sqrt_quarter]
  norm_num

lemma d_ref : d (1/5) 1 4 = (Real.exp (1/10))⁻¹ := by rw [d, u_ref, one_div]

lemma df_ref : df (1/20) 1 4 = (Real.exp (1/80))⁻¹ := by
  rw [df, dt_ref, show (-(1/20) * (1/4 : ℝ)) = -(1/80) by norm_num, Real.exp_neg]

lemma q_ref : q (1/20) (1/5) 1 4 =
    (Real.exp (1/80) - (Real.exp (1/10))⁻¹) /
      (Real.exp (1/10) - (Real.exp (1/10))⁻¹) := by
  rw [q, dt_ref, u_ref, d_ref, show ((1/20) * (1/4 : ℝ)) = 1/80 by norm_num]

lemma runBack4_eval (q0 df0 : ℝ) (V : ℕ → ℕ → ℝ) :
    runBack 4 q0 df0 V 4 0 0 =
      df0 ^ 4 * q0 ^ 4 * V 0 4 + df0 ^ 4 * q0 ^ 3 * (1 - q0) * V 1 4
        + 3 * df0 ^ 3 * q0 ^ 2 * (1 - q0) * V 1 3
        + 2 * df0 ^ 3 * q0 * (1 - q0) ^ 2 * V 2 3
        + df0 ^ 2 * (1 - q0) ^ 2 * V 2 2 := by
  norm_num [runBack, backStep]
  ring

lemma runBackSpec4_eval (q0 df0 : ℝ) (V : ℕ → ℕ → ℝ) :
    runBackSpec 4 q0 df0 V 4 0 0 =
      df0 ^ 4 * (q0 ^ 4 * V 0 4 + 4 * q0 ^ 3 * (1 - q0) * V 1 4
        + 6 * q0 ^ 2 * (1 - q0) ^ 2 * V 2 4
        + 4 * q0 * (1 - q0) ^ 3 * V 3 4 + (1 - q0) ^ 4 * V 4 4) := by
  norm_num [runBackSpec, backStepSpec]
  ring

lemma payoffGrid_nonneg (K : ℝ) (S : ℕ → ℕ → ℝ) (otype : String) (i t : ℕ) :
    0 ≤ payoffGrid K S otype i t := by
  simp only [payoffGrid]
  by_cases hcall : otype = "call"
  · rw [if_pos hcall]; exact le_max_right _ _
  · rw [if_neg hcall]; exact le_max_right _ _

lemma cellCall04 :
    payoffGrid 100 (Sgrid 100 (Real.exp (1/10)) ((Real.exp (1/10))⁻¹)) "call" 0 4 =
      max (100 * Real.exp (1/10) ^ 4 - 100) 0 := by
  norm_num [payoffGrid, Sgrid, zpow_ofNat]

lemma cellCall14 :
    payoffGrid 100 (Sgrid 100 (Real.exp (1/10)) ((Real.exp (1/10))⁻¹)) "call" 1 4 =
      max (100 * Real.exp (1/10) ^ 3 * (Real.exp (1/10))⁻¹ - 100) 0 := by
  norm_num [payoffGrid, Sgrid, zpow_ofNat]

lemma cellCall13 :
    payoffGrid 100 (Sgrid 100 (Real.exp (1/10)) ((Real.exp (1/10))⁻¹)) "call" 1 3 =
      max (100 * Real.exp (1/10) ^ 2 * (Real.exp (1/10))⁻¹ - 100) 0 := by
  norm_num [payoffGrid, Sgrid, zpow_ofNat]

lemma cellCall23 :
    payoffGrid 100 (Sgrid 100 (Real.exp (1/10)) ((Real.exp (1/10))⁻¹)) "call" 2 3 =
      max (100 * Real.exp (1/10) * ((Real.exp (1/10))⁻¹) ^ 2 - 100) 0 := by
  norm_num [payoffGrid, Sgrid, zpow_ofNat]

lemma cellCall22 :
    payoffGrid 100 (Sgrid 100 (Real.exp (1/10)) ((Real.exp (1/10))⁻¹)) "call" 2 2 =
      max (100 * ((Real.exp (1/10))⁻¹) ^ 2 - 100) 0 := by
  norm_num [payoffGrid, Sgrid, zpow_ofNat]

lemma cellPut04 :
    payoffGrid 100 (Sgrid 100 (Real.exp (1/10)) ((Real.exp (1/10))⁻¹)) "put" 0 4 =
      max (100 - 100 * Real.exp (1/10) ^ 4) 0 := by
  norm_num [payoffGrid, Sgrid, zpow_ofNat]
  intro h
  exact absurd h (by decide)

lemma cellPut14 :
    payoffGrid 100 (Sgrid 100 (Real.exp (1/10)) ((Real.exp (1/10))⁻¹)) "put" 1 4 =
      max (100 - 100 * Real.exp (1/10) ^ 3 * (Real.exp (1/10))⁻¹) 0 := by
  norm_num [payoffGrid, Sgrid, zpow_ofNat]
  intro h
  exact absurd h (by decide)

lemma cellPut13 :
    payoffGrid 100 (Sgrid 100 (Real.exp (1/10)) ((Real.exp (1/10))⁻¹)) "put" 1 3 =
      max (100 - 100 * Real.exp (1/10) ^ 2 * (Real.exp (1/10))⁻¹) 0 := by
  norm_num [payoffGrid, Sgrid, zpow_ofNat]
  intro h
  exact absurd h (by decide)

lemma cellPut23 :
    payoffGrid 100 (Sgrid 100 (Real.exp (1/10)) ((Real.exp (1/10))⁻¹)) "put" 2 3 =
      max (100 - 100 * Real.exp (1/10) * ((Real.exp (1/10))⁻¹) ^ 2) 0 := by
  norm_num [payoffGrid, Sgrid, zpow_ofNat]
  intro h
  exact absurd h (by decide)

lemma cellPut22 :
    payoffGrid 100 (Sgrid 100 (Real.exp (1/10)) ((Real.exp (1/10))⁻¹)) "put" 2 2 =
      max (100 - 100 * ((Real.exp (1/10))⁻¹) ^ 2) 0 := by
  norm_num [payoffGrid, Sgrid, zpow_ofNat]
  intro h
  exact absurd h (by decide)

set_option maxHeartbeats 2000000 in
lemma refCallSum_bounds (dfi qE C04 C14 C13 C23 C22 : ℝ)
    (hf1 : 0.987577800 ≤ dfi) (hf2 : dfi ≤ 0.987577802)
    (hqa : 0.537808325 ≤ qE) (hqb : qE ≤ 0.537808419)
    (h04a : 100 * 1.105170915 ^ 4 - 100 ≤ C04)
    (h04b : C04 ≤ 100 * 1.105170919 ^ 4 - 100)
    (h14a : 100 * 1.105170915 ^ 3 * 0.904837417 - 100 ≤ C14)
    (h14b : C14 ≤ 100 * 1.105170919 ^ 3 * 0.904837421 - 100)
    (h13a : 100 * 1.105170915 ^ 2 * 0.904837417 - 100 ≤ C13)
    (h13b : C13 ≤ 100 * 1.105170919 ^ 2 * 0.904837421 - 100)
    (h23a : 0 ≤ C23) (h23b : C23 ≤ 0) (h22a : 0 ≤ C22) (h22b : C22 ≤ 0) :
    (9.4906 : ℝ) ≤ dfi ^ 4 * qE ^ 4 * C04 + dfi ^ 4 * qE ^ 3 * (1 - qE) * C14
        + 3 * dfi ^ 3 * qE ^ 2 * (1 - qE) * C13
        + 2 * dfi ^ 3 * qE * (1 - qE) ^ 2 * C23 + dfi ^ 2 * (1 - qE) ^ 2 * C22 ∧
      dfi ^ 4 * qE ^ 4 * C04 + dfi ^ 4 * qE ^ 3 * (1 - qE) * C14
        + 3 * dfi ^ 3 * qE ^ 2 * (1 - qE) * C13
        + 2 * dfi ^ 3 * qE * (1 - qE) ^ 2 * C23 + dfi ^ 2 * (1 - qE) ^ 2 * C22 ≤ 9.4907 := by
  have hf0 : (0:ℝ) ≤ dfi := by linarith
  have hq0 : (0:ℝ) ≤ qE := by linarith
  have hp1 : (0.462191581 : ℝ) ≤ 1 - qE := by linarith
  have hp2 : 1 - qE ≤ (0.462191675 : ℝ) := by linarith
  have hp0 : (0:ℝ) ≤ 1 - qE := by linarith
  have hf4a : (0.987577800:ℝ) ^ 4 ≤ dfi ^ 4 := pow_le_pow_left (by norm_num) hf1 4
  have hf4b : dfi ^ 4 ≤ (0.987577802:ℝ) ^ 4 := pow_le_pow_left hf0 hf2 4
  have hf3a : (0.987577800:ℝ) ^ 3 ≤ dfi ^ 3 := pow_le_pow_left (by norm_num) hf1 3
  have hf3b : dfi ^ 3 ≤ (0.987577802:ℝ) ^ 3 := pow_le_pow_left hf0 hf2 3
  have hf2a : (0.987577800:ℝ) ^ 2 ≤ dfi ^ 2 := pow_le_pow_left (by norm_num) hf1 2
  have hf2b : dfi ^ 2 ≤ (0.987577802:ℝ) ^ 2 := pow_le_pow_left hf0 hf2 2
  have hq4a : (0.537808325:ℝ) ^ 4 ≤ qE ^ 4 := pow_le_pow_left (by norm_num) hqa 4
  have hq4b : qE ^ 4 ≤ (0.537808419:ℝ) ^ 4 := pow_le_pow_left hq0 hqb 4
  have hq3a : (0.537808325:ℝ) ^ 3 ≤ qE ^ 3 := pow_le_pow_left (by norm_num) hqa 3
  have hq3b : qE ^ 3 ≤ (0.537808419:ℝ) ^ 3 := pow_le_pow_left hq0 hqb 3
  have hq2a : (0.537808325:ℝ) ^ 2 ≤ qE ^ 2 := pow_le_pow_left (by norm_num) hqa 2
  have hq2b : qE ^ 2 ≤ (0.537808419:ℝ) ^ 2 := pow_le_pow_left hq0 hqb 2
  have hpsa : (0.462191581:ℝ) ^ 2 ≤ (1 - qE) ^ 2 := pow_le_pow_left (by norm_num) hp1 2
  have hpsb : (1 - qE) ^ 2 ≤ (0.462191675:ℝ) ^ 2 := pow_le_pow_left hp0 hp2 2
  obtain ⟨a1, b1⟩ := mul_bounds hf4a hf4b hq4a hq4b (by norm_num) (by norm_num)
  obtain ⟨t1a, t1b⟩ := mul_bounds a1 b1 h04a h04b (by norm_num) (by norm_num)
  obtain ⟨a2, b2⟩ := mul_bounds hf4a hf4b hq3a hq3b (by norm_num) (by norm_num)
  obtain ⟨c2, d2⟩ := mul_bounds a2 b2 hp1 hp2 (by norm_num) (by norm_num)
  obtain ⟨t2a, t2b⟩ := mul_bounds c2 d2 h14a h14b (by norm_num) (by norm_num)
  have h3fa : 3 * (0.987577800:ℝ) ^ 3 ≤ 3 * dfi ^ 3 := by linarith
  have h3fb : 3 * dfi ^ 3 ≤ 3 * (0.987577802:ℝ) ^ 3 := by linarith
  obtain ⟨a3, b3⟩ := mul_bounds h3fa h3fb hq2a hq2b (by norm_num) (by norm_num)
  obtain ⟨c3, d3⟩ := mul_bounds a3 b3 hp1 hp2 (by norm_num) (by norm_num)
  obtain ⟨t3a, t3b⟩ := mul_bounds c3 d3 h13a h13b (by norm_num) (by norm_num)
  have h2fa : 2 * (0.987577800:ℝ) ^ 3 ≤ 2 * dfi ^ 3 := by linarith
  have h2fb : 2 * dfi ^ 3 ≤ 2 * (0.987577802:ℝ) ^ 3 := by linarith
  obtain ⟨a4, b4⟩ := mul_bounds h2fa h2fb hqa hqb (by norm_num) (by norm_num)
  obtain ⟨c4, d4⟩ := mul_bounds a4 b4 hpsa hpsb (by norm_num) (by norm_num)
  obtain ⟨t4a, t4b⟩ := mul_bounds c4 d4 h23a h23b (by norm_num) (by norm_num)
  obtain ⟨a5, b5⟩ := mul_bounds hf2a hf2b hpsa hpsb (by norm_num) (by norm_num)
  obtain ⟨t5a, t5b⟩ := mul_bounds a5 b5 h22a h22b (by norm_num) (by norm_num)
  constructor
  · linarith [t1a, t2a, t3a, t4a, t5a]
  · linarith [t1b, t2b, t3b, t4b, t5b]

set_option maxHeartbeats 2000000 in
lemma refPutSum_bounds (dfi qE P04 P14 P13 P23 P22 : ℝ)
    (hf1 : 0.987577800 ≤ dfi) (hf2 : dfi ≤ 0.987577802)
    (hqa : 0.537808325 ≤ qE) (hqb : qE ≤ 0.537808419)
    (h04a : 0 ≤ P04) (h04b : P04 ≤ 0)
    (h14a : 0 ≤ P14) (h14b : P14 ≤ 0)
    (h13a : 0 ≤ P13) (h13b : P13 ≤ 0)
    (h23a : 100 - 100 * 1.105170919 * 0.904837421 ^ 2 ≤ P23)
    (h23b : P23 ≤ 100 - 100 * 1.105170915 * 0.904837417 ^ 2)
    (h22a : 100 - 100 * 0.904837421 ^ 2 ≤ P22)
    (h22b : P22 ≤ 100 - 100 * 0.904837417 ^ 2) :
    (5.8827 : ℝ) ≤ dfi ^ 4 * qE ^ 4 * P04 + dfi ^ 4 * qE ^ 3 * (1 - qE) * P14
        + 3 * dfi ^ 3 * qE ^ 2 * (1 - qE) * P13
        + 2 * dfi ^ 3 * qE * (1 - qE) ^ 2 * P23 + dfi ^ 2 * (1 - qE) ^ 2 * P22 ∧
      dfi ^ 4 * qE ^ 4 * P04 + dfi ^ 4 * qE ^ 3 * (1 - qE) * P14
        + 3 * dfi ^ 3 * qE ^ 2 * (1 - qE) * P13
        + 2 * dfi ^ 3 * qE * (1 - qE) ^ 2 * P23 + dfi ^ 2 * (1 - qE) ^ 2 * P22 ≤ 5.8829 := by
  have hf0 : (0:ℝ) ≤ dfi := by linarith
  have hq0 : (0:ℝ) ≤ qE := by linarith
  have hp1 : (0.462191581 : ℝ) ≤ 1 - qE := by linarith
  have hp2 : 1 - qE ≤ (0.462191675 : ℝ) := by linarith
  have hp0 : (0:ℝ) ≤ 1 - qE := by linarith
  have hf4a : (0.987577800:ℝ) ^ 4 ≤ dfi ^ 4 := pow_le_pow_left (by norm_num) hf1 4
  have hf4b : dfi ^ 4 ≤ (0.987577802:ℝ) ^ 4 := pow_le_pow_left hf0 hf2 4
  have hf3a : (0.987577800:ℝ) ^ 3 ≤ dfi ^ 3 := pow_le_pow_left (by norm_num) hf1 3
  have hf3b : dfi ^ 3 ≤ (0.987577802:ℝ) ^ 3 := pow_le_pow_left hf0 hf2 3
  have hf2a : (0.987577800:ℝ) ^ 2 ≤ dfi ^ 2 := pow_le_pow_left (by norm_num) hf1 2
  have hf2b : dfi ^ 2 ≤ (0.987577802:ℝ) ^ 2 := pow_le_pow_left hf0 hf2 2
  have hq4a : (0.537808325:ℝ) ^ 4 ≤ qE ^ 4 := pow_le_pow_left (by norm_num) hqa 4
  have hq4b : qE ^ 4 ≤ (0.537808419:ℝ) ^ 4 := pow_le_pow_left hq0 hqb 4
  have hq3a : (0.537808325:ℝ) ^ 3 ≤ qE ^ 3 := pow_le_pow_left (by norm_num) hqa 3
  have hq3b : qE ^ 3 ≤ (0.537808419:ℝ) ^ 3 := pow_le_pow_left hq0 hqb 3
  have hq2a : (0.537808325:ℝ) ^ 2 ≤ qE ^ 2 := pow_le_pow_left (by norm_num) hqa 2
  have hq2b : qE ^ 2 ≤ (0.537808419:ℝ) ^ 2 := pow_le_pow_left hq0 hqb 2
  have hpsa : (0.462191581:ℝ) ^ 2 ≤ (1 - qE) ^ 2 := pow_le_pow_left (by norm_num) hp1 2
  have hpsb : (1 - qE) ^ 2 ≤ (0.462191675:ℝ) ^ 2 := pow_le_pow_left hp0 hp2 2
  obtain ⟨a1, b1⟩ := mul_bounds hf4a hf4b hq4a hq4b (by norm_num) (by norm_num)
  obtain ⟨t1a, t1b⟩ := mul_bounds a1 b1 h04a h04b (by norm_num) (by norm_num)
  obtain ⟨a2, b2⟩ := mul_bounds hf4a hf4b hq3a hq3b (by norm_num) (by norm_num)
  obtain ⟨c2, d2⟩ := mul_bounds a2 b2 hp1 hp2 (by norm_num) (by norm_num)
  obtain ⟨t2a, t2b⟩ := mul_bounds c2 d2 h14a h14b (by norm_num) (by norm_num)
  have h3fa : 3 * (0.987577800:ℝ) ^ 3 ≤ 3 * dfi ^ 3 := by linarith
  have h3fb : 3 * dfi ^ 3 ≤ 3 * (0.987577802:ℝ) ^ 3 := by linarith
  obtain ⟨a3, b3⟩ := mul_bounds h3fa h3fb hq2a hq2b (by norm_num) (by norm_num)
  obtain ⟨c3, d3⟩ := mul_bounds a3 b3 hp1 hp2 (by norm_num) (by norm_num)
  obtain ⟨t3a, t3b⟩ := mul_bounds c3 d3 h13a h13b (by norm_num) (by norm_num)
  have h2fa : 2 * (0.987577800:ℝ) ^ 3 ≤ 2 * dfi ^ 3 := by linarith
  have h2fb : 2 * dfi ^ 3 ≤ 2 * (0.987577802:ℝ) ^ 3 := by linarith
  obtain ⟨a4, b4⟩ := mul_bounds h2fa h2fb hqa hqb (by norm_num) (by norm_num)
  obtain ⟨c4, d4⟩ := mul_bounds a4 b4 hpsa hpsb (by norm_num) (by norm_num)
  obtain ⟨t4a, t4b⟩ := mul_bounds c4 d4 h23a h23b (by norm_num) (by norm_num)
  obtain ⟨a5, b5⟩ := mul_bounds hf2a hf2b hpsa hpsb (by norm_num) (by norm_num)
  obtain ⟨t5a, t5b⟩ := mul_bounds a5 b5 h22a h22b (by norm_num) (by norm_num)
  constructor
  · linarith [t1a, t2a, t3a, t4a, t5a]
  · linarith [t1b, t2b, t3b, t4b, t5b]

set_option maxHeartbeats 2000000 in
lemma refSpecSum_lb (dfi qE C04 C14 R3 R4 R5 : ℝ)
    (hf1 : 0.987577800 ≤ dfi) (hf2 : dfi ≤ 0.987577802)
    (hqa : 0.537808325 ≤ qE) (hqb : qE ≤ 0.537808419)
    (h04a : 100 * 1.105170915 ^ 4 - 100 ≤ C04)
    (h14a : 100 * 1.105170915 ^ 3 * 0.904837417 - 100 ≤ C14)
    (hR3 : 0 ≤ R3) (hR4 : 0 ≤ R4) (hR5 : 0 ≤ R5) :
    (9.95 : ℝ) ≤ dfi ^ 4 * (qE ^ 4 * C04 + 4 * qE ^ 3 * (1 - qE) * C14
      + 6 * qE ^ 2 * (1 - qE) ^ 2 * R3 + 4 * qE * (1 - qE) ^ 3 * R4
      + (1 - qE) ^ 4 * R5) := by
  have hq0 : (0:ℝ) ≤ qE := by linarith
  have hf0 : (0:ℝ) ≤ dfi := by linarith
  have hp1 : (0.462191581:ℝ) ≤ 1 - qE := by linarith
  have hp0 : (0:ℝ) ≤ 1 - qE := by linarith
  have hq4a : (0.537808325:ℝ) ^ 4 ≤ qE ^ 4 := pow_le_pow_left (by norm_num) hqa 4
  have hq3a : (0.537808325:ℝ) ^ 3 ≤ qE ^ 3 := pow_le_pow_left (by norm_num) hqa 3
  have hf4a : (0.987577800:ℝ) ^ 4 ≤ dfi ^ 4 := pow_le_pow_left (by norm_num) hf1 4
  have t1 : (0.537808325:ℝ) ^ 4 * (100 * 1.105170915 ^ 4 - 100) ≤ qE ^ 4 * C04 :=
    mul_le_mul hq4a h04a (by norm_num) (pow_nonneg hq0 4)
  have hq3p : 4 * (0.537808325:ℝ) ^ 3 * 0.462191581 ≤ 4 * qE ^ 3 * (1 - qE) := by
    have h1 : (4:ℝ) * 0.537808325 ^ 3 ≤ 4 * qE ^ 3 := by linarith
    exact mul_le_mul h1 hp1 (by norm_num) (by linarith)
  have t2 : 4 * (0.537808325:ℝ) ^ 3 * 0.462191581 *
      (100 * 1.105170915 ^ 3 * 0.904837417 - 100) ≤ 4 * qE ^ 3 * (1 - qE) * C14 :=
    mul_le_mul hq3p h14a (by norm_num) (mul_nonneg (by linarith) hp0)
  have t3 : (0:ℝ) ≤ 6 * qE ^ 2 * (1 - qE) ^ 2 * R3 :=
    mul_nonneg (mul_nonneg (mul_nonneg (by norm_num) (pow_nonneg hq0 2))
      (pow_nonneg hp0 2)) hR3
  have t4 : (0:ℝ) ≤ 4 * qE * (1 - qE) ^ 3 * R4 :=
    mul_nonneg (mul_nonneg (mul_nonneg (by norm_num) hq0) (pow_nonneg hp0 3)) hR4
  have t5 : (0:ℝ) ≤ (1 - qE) ^ 4 * R5 := mul_nonneg (pow_nonneg hp0 4) hR5
  have hinner : (0.537808325:ℝ) ^ 4 * (100 * 1.105170915 ^ 4 - 100)
      + 4 * 0.537808325 ^ 3 * 0.462191581 * (100 * 1.105170915 ^ 3 * 0.904837417 - 100)
      ≤ qE ^ 4 * C04 + 4 * qE ^ 3 * (1 - qE) * C14 + 6 * qE ^ 2 * (1 - qE) ^ 2 * R3
        + 4 * qE * (1 - qE) ^ 3 * R4 + (1 - qE) ^ 4 * R5 := by
    linarith [t1, t2, t3, t4, t5]
  have hfin := mul_le_mul hf4a hinner (by norm_num) (pow_nonneg hf0 4)
  linarith [hfin]

set_option maxHeartbeats 2000000 in
lemma refCall_bounds :
    (9.4906 : ℝ) ≤ runBack 4 (q (1/20) (1/5) 1 4) (df (1/20) 1 4)
        (payoffGrid 100 (Sgrid 100 (u (1/5) 1 4) (d (1/5) 1 4)) "call") 4 0 0 ∧
      runBack 4 (q (1/20) (1/5) 1 4) (df (1/20) 1 4)
        (payoffGrid 100 (Sgrid 100 (u (1/5) 1 4) (d (1/5) 1 4)) "call") 4 0 0 ≤ 9.4907 := by
  obtain ⟨hUa, hUb⟩ := exp_tenth_bounds
  obtain ⟨hda, hdb⟩ := d_num_bounds
  obtain ⟨hfa, hfb⟩ := df_num_bounds
  obtain ⟨hqa, hqb⟩ := q_expr_bounds
  have hU0 : (0:ℝ) ≤ Real.exp (1/10) := (Real.exp_pos _).le
  have hd0 : (0:ℝ) ≤ (Real.exp (1/10))⁻¹ := by linarith
  have hU4a : (1.105170915:ℝ) ^ 4 ≤ Real.exp (1/10) ^ 4 := pow_le_pow_left (by norm_num) hUa 4
  have hU4b : Real.exp (1/10) ^ 4 ≤ (1.105170919:ℝ) ^ 4 := pow_le_pow_left hU0 hUb 4
  have hU3a : (1.105170915:ℝ) ^ 3 ≤ Real.exp (1/10) ^ 3 := pow_le_pow_left (by norm_num) hUa 3
  have hU3b : Real.exp (1/10) ^ 3 ≤ (1.105170919:ℝ) ^ 3 := pow_le_pow_left hU0 hUb 3
  have hU2a : (1.105170915:ℝ) ^ 2 ≤ Real.exp (1/10) ^ 2 := pow_le_pow_left (by norm_num) hUa 2
  have hU2b : Real.exp (1/10) ^ 2 ≤ (1.105170919:ℝ) ^ 2 := pow_le_pow_left hU0 hUb 2
  have hd2a : (0.904837417:ℝ) ^ 2 ≤ ((Real.exp (1/10))⁻¹) ^ 2 := pow_le_pow_left (by norm_num) hda 2
  have hd2b : ((Real.exp (1/10))⁻¹) ^ 2 ≤ (0.904837421:ℝ) ^ 2 := pow_le_pow_left hd0 hdb 2
  have g3a : (100:ℝ) * 1.105170915 ^ 3 ≤ 100 * Real.exp (1/10) ^ 3 := by linarith
  have g3b : 100 * Real.exp (1/10) ^ 3 ≤ (100:ℝ) * 1.105170919 ^ 3 := by linarith
  obtain ⟨p14a, p14b⟩ := mul_bounds g3a g3b hda hdb (by norm_num) (by norm_num)
  have g2a : (100:ℝ) * 1.105170915 ^ 2 ≤ 100 * Real.exp (1/10) ^ 2 := by linarith
  have g2b : 100 * Real.exp (1/10) ^ 2 ≤ (100:ℝ) * 1.105170919 ^ 2 := by linarith
  obtain ⟨p13a, p13b⟩ := mul_bounds g2a g2b hda hdb (by norm_num) (by norm_num)
  have g1a : (100:ℝ) * 1.105170915 ≤ 100 * Real.exp (1/10) := by linarith
  have g1b : 100 * Real.exp (1/10) ≤ (100:ℝ) * 1.105170919 := by linarith
  obtain ⟨p23a, p23b⟩ := mul_bounds g1a g1b hd2a hd2b (by norm_num) (by norm_num)
  rw [runBack4_eval, u_ref, d_ref, df_ref, q_ref, cellCall04, cellCall14, cellCall13,
    cellCall23, cellCall22]
  exact refCallSum_bounds _ _ _ _ _ _ _ hfa hfb hqa hqb
    (le_trans (by linarith) (le_max_left _ _))
    (max_le (by linarith) (by norm_num))
    (le_trans (by linarith [p14a]) (le_max_left _ _))
    (max_le (by linarith [p14b]) (by norm_num))
    (le_trans (by linarith [p13a]) (le_max_left _ _))
    (max_le (by linarith [p13b]) (by norm_num))
    (le_max_right _ _)
    (max_le (by linarith [p23b]) le_rfl)
    (le_max_right _ _)
    (max_le (by linarith [hd2b]) le_rfl)

set_option maxHeartbeats 2000000 in
lemma refPut_bounds :
    (5.8827 : ℝ) ≤ runBack 4 (q (1/20) (1/5) 1 4) (df (1/20) 1 4)
        (payoffGrid 100 (Sgrid 100 (u (1/5) 1 4) (d (1/5) 1 4)) "put") 4 0 0 ∧
      runBack 4 (q (1/20) (1/5) 1 4) (df (1/20) 1 4)
        (payoffGrid 100 (Sgrid 100 (u (1/5) 1 4) (d (1/5) 1 4)) "put") 4 0 0 ≤ 5.8829 := by
  obtain ⟨hUa, hUb⟩ := exp_tenth_bounds
  obtain ⟨hda, hdb⟩ := d_num_bounds
  obtain ⟨hfa, hfb⟩ := df_num_bounds
  obtain ⟨hqa, hqb⟩ := q_expr_bounds
  have hU0 : (0:ℝ) ≤ Real.exp (1/10) := (Real.exp_pos _).le
  have hd0 : (0:ℝ) ≤ (Real.exp (1/10))⁻¹ := by linarith
  have hU4a : (1.105170915:ℝ) ^ 4 ≤ Real.exp (1/10) ^ 4 := pow_le_pow_left (by norm_num) hUa 4
  have hU3a : (1.105170915:ℝ) ^ 3 ≤ Real.exp (1/10) ^ 3 := pow_le_pow_left (by norm_num) hUa 3
  have hU2a : (1.105170915:ℝ) ^ 2 ≤ Real.exp (1/10) ^ 2 := pow_le_pow_left (by norm_num) hUa 2
  have hd2a : (0.904837417:ℝ) ^ 2 ≤ ((Real.exp (1/10))⁻¹) ^ 2 := pow_le_pow_left (by norm_num) hda 2
  have hd2b : ((Real.exp (1/10))⁻¹) ^ 2 ≤ (0.904837421:ℝ) ^ 2 := pow_le_pow_left hd0 hdb 2
  have g3a : (100:ℝ) * 1.105170915 ^ 3 ≤ 100 * Real.exp (1/10) ^ 3 := by linarith
  obtain ⟨p14a, _⟩ := mul_bounds g3a (by linarith [pow_le_pow_left hU0 hUb 3] :
    100 * Real.exp (1/10) ^ 3 ≤ (100:ℝ) * 1.105170919 ^ 3) hda hdb (by norm_num) (by norm_num)
  have g2a : (100:ℝ) * 1.105170915 ^ 2 ≤ 100 * Real.exp (1/10) ^ 2 := by linarith
  obtain ⟨p13a, _⟩ := mul_bounds g2a (by linarith [pow_le_pow_left hU0 hUb 2] :
    100 * Real.exp (1/10) ^ 2 ≤ (100:ℝ) * 1.105170919 ^ 2) hda hdb (by norm_num) (by norm_num)
  have g1a : (100:ℝ) * 1.105170915 ≤ 100 * Real.exp (1/10) := by linarith
  have g1b : 100 * Real.exp (1/10) ≤ (100:ℝ) * 1.105170919 := by linarith
  obtain ⟨p23a, p23b⟩ := mul_bounds g1a g1b hd2a hd2b (by norm_num) (by norm_num)
  rw [runBack4_eval, u_ref, d_ref, df_ref, q_ref, cellPut04, cellPut14, cellPut13,
    cellPut23, cellPut22]
  exact refPutSum_bounds _ _ _ _ _ _ _ hfa hfb hqa hqb
    (le_max_right _ _)
    (max_le (by linarith) le_rfl)
    (le_max_right _ _)
    (max_le (by linarith [p14a]) le_rfl)
    (le_max_right _ _)
    (max_le (by linarith [p13a]) le_rfl)
    (le_trans (by linarith [p23b]) (le_max_left _ _))
    (max_le (by linarith [p23a]) (by norm_num))
    (le_trans (by linarith [hd2b]) (le_max_left _ _))
    (max_le (by linarith [hd2a]) (by norm_num))

set_option maxHeartbeats 2000000 in
lemma refSpec_lb :
    (9.95 : ℝ) ≤ specBackwardValue 100 100 1 (1/20) (1/5) "call" 4 := by
  obtain ⟨hUa, hUb⟩ := exp_tenth_bounds
  obtain ⟨hda, hdb⟩ := d_num_bounds
  obtain ⟨hfa, hfb⟩ := df_num_bounds
  obtain ⟨hqa, hqb⟩ := q_expr_bounds
  have hU4a : (1.105170915:ℝ) ^ 4 ≤ Real.exp (1/10) ^ 4 := pow_le_pow_left (by norm_num) hUa 4
  have hU3a : (1.105170915:ℝ) ^ 3 ≤ Real.exp (1/10) ^ 3 := pow_le_pow_left (by norm_num) hUa 3
  have hU0 : (0:ℝ) ≤ Real.exp (1/10) := (Real.exp_pos _).le
  have g3a : (100:ℝ) * 1.105170915 ^ 3 ≤ 100 * Real.exp (1/10) ^ 3 := by linarith
  obtain ⟨p14a, _⟩ := mul_bounds g3a (by linarith [pow_le_pow_left hU0 hUb 3] :
    100 * Real.exp (1/10) ^ 3 ≤ (100:ℝ) * 1.105170919 ^ 3) hda hdb (by norm_num) (by norm_num)
  rw [specBackwardValue, runBackSpec4_eval, u_ref, d_ref, df_ref, q_ref, cellCall04,
    cellCall14]
  exact refSpecSum_lb _ _ _ _ _ _ _ hfa hfb hqa hqb
    (le_trans (by linarith) (le_max_left _ _))
    (le_trans (by linarith [p14a]) (le_max_left _ _))
    (payoffGrid_nonneg _ _ _ _ _) (payoffGrid_nonneg _ _ _ _ _)
    (payoffGrid_nonneg _ _ _ _ _)

/-- C2: on the reference scenario (initial price 100, strike 100, maturity 1,
rate 0.05, volatility 0.2, call, 4 steps) the function returns a numeric price
within 0.001 of 9.491. -/
theorem C2_reference_value :
    ∃ v, CRR_option_value 100 100 1 (1/20) (1/5) "call" 4 = Except.ok v ∧
      |v - 9.491| < 1/1000 := by
  have h1 : (0:ℝ) < dt 1 4 := by norm_num [dt]
  refine ⟨_, CRR_option_value_ok 100 100 1 (1/20) (1/5) "call" 4 (by norm_num)
    (not_lt.mpr h1.le) (mul_ne_zero (by norm_num) (ne_of_gt (Real.sqrt_pos.mpr h1))), ?_⟩
  obtain ⟨hl, hu⟩ := refCall_bounds
  rw [abs_lt]
  constructor <;> linarith

/-- C1: the code does not implement the backward induction of the spec, which
updates every state i with 0 <= i <= t at column t: on the reference scenario
the code returns a price below 9.5 while the induction described by the spec
yields a value above 9.9 from the very same lattice parameters and terminal
payoff grid. -/
theorem C1_backward_induction_gap :
    ∃ v, CRR_option_value 100 100 1 (1/20) (1/5) "call" 4 = Except.ok v ∧
      v < 9.5 ∧ 9.9 < specBackwardValue 100 100 1 (1/20) (1/5) "call" 4 := by
  have h1 : (0:ℝ) < dt 1 4 := by norm_num [dt]
  refine ⟨_, CRR_option_value_ok 100 100 1 (1/20) (1/5) "call" 4 (by norm_num)
    (not_lt.mpr h1.le) (mul_ne_zero (by norm_num) (ne_of_gt (Real.sqrt_pos.mpr h1))),
    ?_, ?_⟩
  · obtain ⟨hl, hu⟩ := refCall_bounds
    linarith
  · linarith [refSpec_lb]

/-- C5: put-call parity fails for this code: on the reference scenario the
difference between the returned call and put prices falls short of
initial_price - strike * exp(-rate * maturity) by more than 0.8. -/
theorem C5_parity_violated :
    ∃ vc vp, CRR_option_value 100 100 1 (1/20) (1/5) "call" 4 = Except.ok vc ∧
      CRR_option_value 100 100 1 (1/20) (1/5) "put" 4 = Except.ok vp ∧
      vc - vp + 4/5 < 100 - 100 * Real.exp (-(1/20)) := by
  have h1 : (0:ℝ) < dt 1 4 := by norm_num [dt]
  refine ⟨_, _, CRR_option_value_ok 100 100 1 (1/20) (1/5) "call" 4 (by norm_num)
    (not_lt.mpr h1.le) (mul_ne_zero (by norm_num) (ne_of_gt (Real.sqrt_pos.mpr h1))),
    CRR_option_value_ok 100 100 1 (1/20) (1/5) "put" 4 (by norm_num)
    (not_lt.mpr h1.le) (mul_ne_zero (by norm_num) (ne_of_gt (Real.sqrt_pos.mpr h1))), ?_⟩
  obtain ⟨hcl, hcu⟩ := refCall_bounds
  obtain ⟨hpl, hpu⟩ := refPut_bounds
  obtain ⟨hfa, hfb⟩ := df_num_bounds
  have hexp : Real.exp (-(1/20)) = ((Real.exp (1/80))⁻¹) ^ 4 := by
    rw [show (-(1/20) : ℝ) = ((4:ℕ):ℝ) * (-(1/80)) by push_cast; norm_num,
      Real.exp_nat_mul, Real.exp_neg]
  rw [hexp]
  have hb4 : ((Real.exp (1/80))⁻¹) ^ 4 ≤ (0.987577802:ℝ) ^ 4 :=
    pow_le_pow_left (by linarith) hfb 4
  linarith [hb4]

theorem C7_witness :
    ∃ v, CRR_option_value 100 100 1 (1/20) (1/5) "call" 4 = Except.ok v ∧ 0 ≤ v := by
  have h := q_expr_bounds
  rw [← q_ref] at h
  exact C7_price_nonneg 100 100 1 (1/20) (1/5) "call" 4 (by norm_num) (by norm_num)
    (by norm_num) (by norm_num) (by norm_num)
    (lt_of_lt_of_le (by norm_num) h.1) (lt_of_le_of_lt h.2 (by norm_num))

end OptionPricing
